import Mathlib

/-!
Verification of the dither-me WebGL dithering pipeline.

The per-pixel algorithms live in the fragment shader (`src/shaders/dither.glsl`),
the pass orchestration in `renderer-service.ts` and `WebGLService` (`webgl-service.ts`),
and palette resolution/rasterization in `palette-service.ts`.

Colors and all shader scalars are modelled as rationals (exact arithmetic);
the spec only promises algorithmic equivalence, not bit-identical floats.
GLSL `gl_FragCoord` is the pixel center `(px + 0.5, py + 0.5)`; since the code
only ever uses `int(mod(gl_FragCoord.x, size))`, which equals `px % size`,
pixel coordinates are modelled as naturals.
-/

namespace DitherMe

/-- A GLSL `vec3` color, one rational per channel. -/
structure Vec3 where
  x : ℚ
  y : ℚ
  z : ℚ
deriving DecidableEq, Repr

instance : Add Vec3 := ⟨fun a b => ⟨a.x + b.x, a.y + b.y, a.z + b.z⟩⟩

/-- The all-zero color (GLSL `vec3(0.)`, black). -/
def Vec3.black : Vec3 := ⟨0, 0, 0⟩

/-- The all-one color (GLSL `vec3(1.)`, white). -/
def Vec3.white : Vec3 := ⟨1, 1, 1⟩

/-- GLSL `mix(a, b, t) = a*(1-t) + b*t` on scalars. -/
def glslMix (a b t : ℚ) : ℚ := a * (1 - t) + b * t

/-- GLSL `mix` on `vec3` with a scalar interpolant, componentwise. -/
def mixV (a b : Vec3) (t : ℚ) : Vec3 :=
  ⟨glslMix a.x b.x t, glslMix a.y b.y t, glslMix a.z b.z t⟩

/-- `toGrayscale`: `dot(color, vec3(.299, .587, .114))` from dither.glsl. -/
def toGrayscale (c : Vec3) : ℚ :=
  c.x * (299/1000) + c.y * (587/1000) + c.z * (114/1000)

/-- GLSL `floor` on a rational scalar. -/
def glslFloor (q : ℚ) : ℚ := (⌊q⌋ : ℚ)

/-- `reduceColor(color, levels) = floor(color * levels) / levels` from dither.glsl. -/
def reduceColor (c : Vec3) (levels : ℚ) : Vec3 :=
  ⟨glslFloor (c.x * levels) / levels,
   glslFloor (c.y * levels) / levels,
   glslFloor (c.z * levels) / levels⟩

/-! ## Bayer threshold matrices (dither.glsl)

GLSL matrix constructors are column-major: `bayerMatrix4x4` column 0 is
`(0, 8, 2, 10)`, and the lookup functions index `matrix[x][y]` = column `x`,
entry `y`. -/

/-- Entry `[x][y]` of `bayerMatrix2x2 = mat2(0.,2., 3.,1.) / 4.`. -/
def bayerMatrix2x2 (x y : ℕ) : ℚ :=
  (if x = 0 then (if y = 0 then 0 else 2) else (if y = 0 then 3 else 1)) / 4

/-- Entry `[x][y]` of `bayerMatrix4x4` (column-major constant from dither.glsl), over 16. -/
def bayerMatrix4x4 (x y : ℕ) : ℚ :=
  (if x = 0 then
    (if y = 0 then 0 else if y = 1 then 8 else if y = 2 then 2 else 10)
  else if x = 1 then
    (if y = 0 then 12 else if y = 1 then 4 else if y = 2 then 14 else 6)
  else if x = 2 then
    (if y = 0 then 3 else if y = 1 then 11 else if y = 2 then 1 else 9)
  else
    (if y = 0 then 15 else if y = 1 then 7 else if y = 2 then 13 else 5)) / 16

/-- `getBayer8x8Value(x, y)` from dither.glsl: the raw 8×8 Bayer table entry. -/
def getBayer8x8Value (x y : ℕ) : ℚ :=
  if x = 0 then
    (if y = 0 then 0 else if y = 1 then 48 else if y = 2 then 12 else if y = 3 then 60
     else if y = 4 then 3 else if y = 5 then 51 else if y = 6 then 15 else if y = 7 then 63
     else 0)
  else if x = 1 then
    (if y = 0 then 32 else if y = 1 then 16 else if y = 2 then 44 else if y = 3 then 28
     else if y = 4 then 35 else if y = 5 then 19 else if y = 6 then 47 else if y = 7 then 31
     else 0)
  else if x = 2 then
    (if y = 0 then 8 else if y = 1 then 56 else if y = 2 then 4 else if y = 3 then 52
     else if y = 4 then 11 else if y = 5 then 59 else if y = 6 then 7 else if y = 7 then 55
     else 0)
  else if x = 3 then
    (if y = 0 then 40 else if y = 1 then 24 else if y = 2 then 36 else if y = 3 then 20
     else if y = 4 then 43 else if y = 5 then 27 else if y = 6 then 39 else if y = 7 then 23
     else 0)
  else if x = 4 then
    (if y = 0 then 2 else if y = 1 then 50 else if y = 2 then 14 else if y = 3 then 62
     else if y = 4 then 1 else if y = 5 then 49 else if y = 6 then 13 else if y = 7 then 61
     else 0)
  else if x = 5 then
    (if y = 0 then 34 else if y = 1 then 18 else if y = 2 then 46 else if y = 3 then 30
     else if y = 4 then 33 else if y = 5 then 17 else if y = 6 then 45 else if y = 7 then 29
     else 0)
  else if x = 6 then
    (if y = 0 then 10 else if y = 1 then 58 else if y = 2 then 6 else if y = 3 then 54
     else if y = 4 then 9 else if y = 5 then 57 else if y = 6 then 5 else if y = 7 then 53
     else 0)
  else if x = 7 then
    (if y = 0 then 42 else if y = 1 then 26 else if y = 2 then 38 else if y = 3 then 22
     else if y = 4 then 41 else if y = 5 then 25 else if y = 6 then 37 else if y = 7 then 21
     else 0)
  else 0

/-- `getBayerThreshold2x2`: reduces its arguments mod 2 and reads the 2×2 matrix. -/
def getBayerThreshold2x2 (x y : ℕ) : ℚ := bayerMatrix2x2 (x % 2) (y % 2)

/-- `getBayerThreshold4x4`: reduces its arguments mod 4 and reads the 4×4 matrix. -/
def getBayerThreshold4x4 (x y : ℕ) : ℚ := bayerMatrix4x4 (x % 4) (y % 4)

/-- `getBayerThreshold8x8`: reduces mod 8 and reads the 8×8 table, over 64. -/
def getBayerThreshold8x8 (x y : ℕ) : ℚ := getBayer8x8Value (x % 8) (y % 8) / 64

/-- `getBayerThreshold`: selects the matrix by `u_bayerSize` (0 = 2×2, 1 = 4×4, else 8×8). -/
def getBayerThreshold (bayerSize : ℤ) (x y : ℕ) : ℚ :=
  if bayerSize = 0 then getBayerThreshold2x2 x y
  else if bayerSize = 1 then getBayerThreshold4x4 x y
  else getBayerThreshold8x8 x y

/-- The matrix size computed in `main`:
`int matrixSize = u_bayerSize == 0 ? 2 : (u_bayerSize == 1 ? 4 : 8)`. -/
def bayerMatrixSize (bayerSize : ℤ) : ℕ :=
  if bayerSize = 0 then 2 else if bayerSize = 1 then 4 else 8

/-- The threshold `main` computes for the pixel at integer coordinate `(px, py)`:
`x = int(mod(gl_FragCoord.x, matrixSize))` etc., then `getBayerThreshold(x, y)`. -/
def bayerThresholdAt (bayerSize : ℤ) (px py : ℕ) : ℚ :=
  getBayerThreshold bayerSize (px % bayerMatrixSize bayerSize) (py % bayerMatrixSize bayerSize)

/-! ## Preprocessing (dither.glsl)

`adjustMidtones` uses GLSL `pow` with a fractional exponent, which is
transcendental; it is taken as a parameter `powF` so that the rest of the
pipeline stays exact. No claim depends on the preprocessing internals:
the theorems quantify over the preprocessed color. -/

/-- GLSL `clamp(q, lo, hi)` on scalars. -/
def glslClamp (q lo hi : ℚ) : ℚ := max lo (min hi q)

/-- GLSL `clamp(c, 0., 1.)` componentwise. -/
def clamp01V (c : Vec3) : Vec3 :=
  ⟨glslClamp c.x 0 1, glslClamp c.y 0 1, glslClamp c.z 0 1⟩

/-- GLSL `step(edge, x)`: `0` when `x < edge`, else `1`. -/
def glslStep (edge x : ℚ) : ℚ := if x < edge then 0 else 1

/-- GLSL `smoothstep(e0, e1, x)`. -/
def glslSmoothstep (e0 e1 x : ℚ) : ℚ :=
  let t := glslClamp ((x - e0) / (e1 - e0)) 0 1
  t * t * (3 - 2 * t)

/-- `adjustContrast` from dither.glsl. -/
def adjustContrast (c : Vec3) (contrast : ℚ) : Vec3 :=
  let factor := if contrast > 0 then 1 + contrast else 1 / (1 - contrast)
  clamp01V ⟨(c.x - 1/2) * factor + 1/2, (c.y - 1/2) * factor + 1/2, (c.z - 1/2) * factor + 1/2⟩

/-- `adjustHighlights` from dither.glsl. -/
def adjustHighlights (c : Vec3) (highlights : ℚ) : Vec3 :=
  let luminance := toGrayscale c
  let highlightMask := glslSmoothstep (1/2) 1 luminance
  let factor := if highlights > 0 then glslMix 1 (1/2) highlights else glslMix 1 2 (-highlights)
  clamp01V (mixV c ⟨c.x * factor, c.y * factor, c.z * factor⟩ highlightMask)

/-- `adjustMidtones` from dither.glsl; `powF` stands for GLSL `pow`. -/
def adjustMidtones (powF : ℚ → ℚ → ℚ) (c : Vec3) (midtones : ℚ) : Vec3 :=
  let luminance := toGrayscale c
  let midtoneMask := glslSmoothstep 0 (1/2) (1 - |luminance - 1/2| * 2)
  let factor := if midtones > 0 then glslMix 1 (3/2) midtones else glslMix 1 (1/2) (-midtones)
  clamp01V (mixV c ⟨powF c.x factor, powF c.y factor, powF c.z factor⟩ midtoneMask)

/-- `preprocessImage` from dither.glsl: contrast, highlights, midtones, then the
brightness threshold blend (only when `u_brightness ≠ 0.5`). -/
def preprocessImage (powF : ℚ → ℚ → ℚ) (contrast highlights midtones brightness : ℚ)
    (c0 : Vec3) : Vec3 :=
  let c1 := adjustContrast c0 contrast
  let c2 := adjustHighlights c1 highlights
  let c3 := adjustMidtones powF c2 midtones
  let luminance := toGrayscale c3
  if brightness ≠ 1/2 then
    let s := glslStep brightness luminance
    mixV ⟨s, s, s⟩ c3 (1/2)
  else c3

/-! ## Palette texture sampling (shader side)

The 256×1 palette texture is created with `LINEAR` filtering and
`CLAMP_TO_EDGE` wrap (palette-service.ts), so `texture2D(u_palette, vec2(lum, 0.5))`
performs 1-D linear interpolation between the two nearest texels, with tap
indices clamped to `[0, 255]`. -/

/-- Clamp an integer texel tap index into `Fin 256` (`CLAMP_TO_EDGE`). -/
def texelClamp (i : ℤ) : Fin 256 := ⟨(max 0 (min i 255)).toNat, by omega⟩

/-- Linear-filtered sample of the 256×1 palette texture at x-coordinate `u`. -/
def samplePalette1D (buf : Fin 256 → Vec3) (u : ℚ) : Vec3 :=
  let t : ℚ := u * 256 - 1/2
  let i0 : ℤ := ⌊t⌋
  let f : ℚ := t - (i0 : ℚ)
  mixV (buf (texelClamp i0)) (buf (texelClamp (i0 + 1))) f

/-- `findClosestPaletteColor` from dither.glsl: luminance lookup into the
palette texture when `u_usePalette`, identity otherwise. -/
def findClosestPaletteColor (usePalette : Bool) (buf : Fin 256 → Vec3) (c : Vec3) : Vec3 :=
  if usePalette then samplePalette1D buf (toGrayscale c) else c

/-! ## The fragment shader `main` (dither.glsl) -/

/-- The shader uniforms relevant to mode dispatch. -/
structure ShaderUniforms where
  ditherAmount : ℚ   -- u_ditherAmount
  ditherType : ℤ     -- u_ditherType: 0=Bayer, 1=Floyd-Steinberg, 2=Ordered
  passIndex : ℤ      -- u_passIndex
  bayerSize : ℤ      -- u_bayerSize: 0=2x2, 1=4x4, 2=8x8
  usePalette : Bool  -- u_usePalette
deriving Repr

/-- `applyFloydSteinberg(uv, color, levels)` from dither.glsl.
`errAt` is `texture2D(u_errorTexture, gl_FragCoord.xy / u_resolution).rgb`,
the error-texture sample at this pixel's own screen coordinate. -/
def applyFloydSteinberg (usePalette : Bool) (buf : Fin 256 → Vec3) (errAt : Vec3)
    (passIndex : ℤ) (color : Vec3) (levels : ℚ) : Vec3 :=
  let oldColor := color
  let newColor := if usePalette then findClosestPaletteColor usePalette buf oldColor
                  else reduceColor oldColor levels
  if passIndex = 0 then
    newColor
  else
    let accumulatedError := errAt
    let adjustedColor := oldColor + accumulatedError
    if usePalette then findClosestPaletteColor usePalette buf adjustedColor
    else reduceColor adjustedColor levels

/-- The fragment shader `main`, from the mode dispatch on (the pixel at
integer coordinate `(px, py)` whose preprocessed sampled color is `color`).
`hash` is the Ordered-mode pseudo-random threshold
`fract(sin(dot(uv, vec2(12.9898,78.233))) * 43758.5453)`, abstracted as an
input because `sin` is transcendental; no claim depends on its value.
`errAt` is the error-texture sample at this pixel's coordinate. -/
def shaderMain (u : ShaderUniforms) (buf : Fin 256 → Vec3) (hash : ℚ) (errAt : Vec3)
    (px py : ℕ) (color : Vec3) : Vec3 :=
  if u.ditherType = 0 then
    -- Bayer dithering
    let threshold := bayerThresholdAt u.bayerSize px py
    let gray := toGrayscale color
    let levels := glslMix 16 2 u.ditherAmount
    let reduced := reduceColor color levels
    let thresholdColor := if gray > threshold then Vec3.white else Vec3.black
    let c := mixV reduced thresholdColor u.ditherAmount
    if u.usePalette then findClosestPaletteColor u.usePalette buf c else c
  else if u.ditherType = 2 then
    -- Ordered dithering
    let rand := hash
    let thresholdColor := if toGrayscale color > rand then Vec3.white else Vec3.black
    let c := mixV color thresholdColor u.ditherAmount
    if u.usePalette then findClosestPaletteColor u.usePalette buf c else c
  else
    -- Floyd-Steinberg dithering
    let levels := glslMix 16 2 u.ditherAmount
    applyFloydSteinberg u.usePalette buf errAt u.passIndex color levels

/-! ## Two-pass Floyd-Steinberg orchestration (renderer-service.ts) -/

/-- The two GPU buffers touched by `renderFloydSteinberg`: the destination
canvas (default framebuffer) and the error scratch texture. -/
structure FSBuffers where
  canvas : ℕ → ℕ → Vec3
  errorTex : ℕ → ℕ → Vec3

/-- `renderFloydSteinberg` from renderer-service.ts. `pre x y` is the
preprocessed sampled color of pixel `(x, y)` (the value of
`preprocessImage(texture2D(u_image, uv).rgb)` in the shader), `hashF` the
per-pixel Ordered hash, `drawThrows` whether `gl.drawArrays` throws (caught
by the function's own try/catch, which returns `false`).

The function zero-initializes the error texture
(`texImage2D(..., FLOAT, null)`), then issues two full-surface draws with
`u_passIndex = 0` and `1`.  Both draws target the default framebuffer
(`bindFramebuffer(FRAMEBUFFER, null)`): no framebuffer is ever attached to
the error texture anywhere in the repository, so each draw rewrites the
canvas and the error texture is never written after its zero-fill. -/
def renderFloydSteinberg (drawThrows : Bool) (u : ShaderUniforms) (buf : Fin 256 → Vec3)
    (hashF : ℕ → ℕ → ℚ) (pre : ℕ → ℕ → Vec3) (bufs : FSBuffers) : FSBuffers × Bool :=
  let b0 : FSBuffers := { bufs with errorTex := fun _ _ => Vec3.black }
  if drawThrows then (b0, false)
  else
    -- First pass: u_passIndex = 0, rendered to the canvas
    let b1 : FSBuffers :=
      { b0 with canvas := fun x y =>
          shaderMain { u with passIndex := 0 } buf (hashF x y) (b0.errorTex x y) x y (pre x y) }
    -- Second pass: u_passIndex = 1, rendered to the same canvas
    let b2 : FSBuffers :=
      { b1 with canvas := fun x y =>
          shaderMain { u with passIndex := 1 } buf (hashF x y) (b1.errorTex x y) x y (pre x y) }
    (b2, true)

/-- `renderStandardDither` from renderer-service.ts: one draw call inside
try/catch; returns `false` exactly when the draw throws. -/
def renderStandardDither (drawThrows : Bool) : Bool := !drawThrows

/-! ## Color utilities (color-utils.ts) -/

/-- Value of one hex digit, case-insensitive (as consumed by
`Number.parseInt(…, 16)`); non-hex characters are modelled as 0 (the code is
only ever called on valid hex strings). -/
def hexVal (c : Char) : ℕ :=
  if '0' ≤ c ∧ c ≤ '9' then c.toNat - 48
  else if 'a' ≤ c ∧ c ≤ 'f' then c.toNat - 87
  else if 'A' ≤ c ∧ c ≤ 'F' then c.toNat - 55
  else 0

/-- `Number.parseInt(s, 16)` on a hex string. -/
def parseHexNat (s : String) : ℕ :=
  s.foldl (fun acc c => 16 * acc + hexVal c) 0

/-- `hexToRgb` from color-utils.ts: strips a leading `#`, parses the hex
value, and splits channels; length ≤ 3 means shorthand `#RGB` (each digit
scaled by 17). -/
def hexToRgb (hex : String) : ℕ × ℕ × ℕ :=
  let cleanHex := if hex.startsWith "#" then hex.drop 1 else hex
  let bigint := parseHexNat cleanHex
  if cleanHex.length ≤ 3 then
    (((bigint >>> 8) &&& 15) * 17, ((bigint >>> 4) &&& 15) * 17, (bigint &&& 15) * 17)
  else
    ((bigint >>> 16) &&& 255, (bigint >>> 8) &&& 255, bigint &&& 255)

/-! ## Palette service (palette-service.ts) -/

/-- The predefined palette color lists (`PALETTES`). -/
def PALETTES_BW : List String := ["#000000", "#FFFFFF"]

def PALETTES_CGA : List String := ["#000000", "#55FFFF", "#FF55FF", "#FFFFFF"]

def PALETTES_GAMEBOY : List String := ["#0F380F", "#306230", "#8BAC0F", "#9BBC0F"]

def PALETTES_GAMEBOY_CLASSIC : List String := ["#0f1b0f", "#306850", "#86c06c", "#e0f8d0"]

def PALETTES_GAMEBOY_POCKET : List String := ["#000000", "#565656", "#aaaaaa", "#ffffff"]

def PALETTES_GRAYSCALE : List String := ["#000000", "#444444", "#888888", "#CCCCCC", "#FFFFFF"]

def PALETTES_SEPIA : List String := ["#402417", "#865C37", "#C49D5A", "#E6D1A7"]

/-- A user-defined palette (`UserPaletteDefinition` in types.ts). -/
structure UserPaletteDefinition where
  id : ℕ
  name : String
  colors : List String
deriving DecidableEq, Repr

/-- `DitherOptions` from types.ts. Optional fields are `Option`s
(`none` = the field is `undefined` in JS). -/
structure DitherOptions where
  ditherAmount : ℚ
  ditherType : ℤ
  bayerSize : Option ℤ := none
  downSampling : Option ℚ := none
  contrast : Option ℚ := none
  highlights : Option ℚ := none
  midtones : Option ℚ := none
  brightness : Option ℚ := none
  usePalette : Option Bool := none
  paletteType : Option ℤ := none
  paletteColors : Option ℕ := none
  customPalette : Option (List String) := none
  userPalettes : Option (List UserPaletteDefinition) := none
  selectedUserPalette : Option ℕ := none
deriving Repr

/-- The `switch (options.paletteType)` in `getPaletteColors` selecting a
predefined palette (default: black & white). -/
def predefinedPaletteOf (paletteType : Option ℤ) : List String :=
  match paletteType with
  | some 0 => PALETTES_BW
  | some 1 => PALETTES_CGA
  | some 2 => PALETTES_GAMEBOY
  | some 5 => PALETTES_GAMEBOY_CLASSIC
  | some 6 => PALETTES_GAMEBOY_POCKET
  | some 7 => PALETTES_GRAYSCALE
  | some 8 => PALETTES_SEPIA
  | _ => PALETTES_BW

/-- The even-step subsetting at the end of `getPaletteColors`:
`step = len/numColors`, `index = min(floor(i * step), len - 1)`.
`Math.floor` of these nonnegative values is `Nat.floor`. -/
def subsetPalette (paletteColors : List String) (numColors : ℕ) : List String :=
  if numColors ≥ paletteColors.length then paletteColors
  else
    let step : ℚ := (paletteColors.length : ℚ) / (numColors : ℚ)
    (List.range numColors).map (fun i =>
      paletteColors.getD (min ⌊(i : ℚ) * step⌋₊ (paletteColors.length - 1)) "#000000")

/-- `getPaletteColors` from palette-service.ts. JS truthiness notes:
`!options.usePalette` is true when the field is `undefined` or `false`;
`options.customPalette` is truthy whenever the array is present (even empty);
`options.paletteColors || 2` turns both `undefined` and `0` into 2. -/
def getPaletteColors (o : DitherOptions) : List String :=
  if o.usePalette.getD false = false then []
  else if o.paletteType = some 3 ∧ o.customPalette.isSome then o.customPalette.getD []
  else
    let viaUser : Option (List String) :=
      if o.paletteType = some 4 ∧ o.userPalettes.isSome ∧ o.selectedUserPalette.isSome then
        ((o.userPalettes.getD []).find? (fun p => p.id == o.selectedUserPalette.getD 0)).map
          UserPaletteDefinition.colors
      else none
    match viaUser with
    | some cs => cs
    | none =>
      let paletteColors := predefinedPaletteOf o.paletteType
      let numColors := match o.paletteColors with
                       | none => 2
                       | some k => if k = 0 then 2 else k
      subsetPalette paletteColors numColors

/-! ## Palette texture rasterization (palette-service.ts) -/

/-- The source-color index for buffer position `i` in
`createPaletteTexture`/`updatePaletteTexture`:
`normalizedPos = i/255`, `colorIndex = min(floor(normalizedPos * len), len-1)`.
`Math.floor` of this nonnegative value is `Nat.floor`. -/
def colorIndexAt (len i : ℕ) : ℕ :=
  min ⌊(i : ℚ) / 255 * (len : ℚ)⌋₊ (len - 1)

/-- One RGBA entry of the rasterized 256×1 palette buffer. -/
def paletteEntry (colors : List String) (i : ℕ) : ℕ × ℕ × ℕ × ℕ :=
  let rgb := hexToRgb (colors.getD (colorIndexAt colors.length i) "#000000")
  (rgb.1, rgb.2.1, rgb.2.2, 255)

/-- The 256-entry RGBA buffer uploaded by `updatePaletteTexture` (and, after
its non-empty/creation guards, by `createPaletteTexture`). -/
def updatePaletteTextureData (colors : List String) : List (ℕ × ℕ × ℕ × ℕ) :=
  (List.range 256).map (paletteEntry colors)

/-- The palette texture as the shader sees it: texel `i` is the RGBA entry's
RGB bytes normalized to `[0,1]`. -/
def paletteVecOf (colors : List String) : Fin 256 → Vec3 :=
  fun i =>
    let e := paletteEntry colors i.val
    ⟨(e.1 : ℚ) / 255, (e.2.1 : ℚ) / 255, (e.2.2.1 : ℚ) / 255⟩

/-! ## WebGLService (webgl-service.ts)

GPU side effects are modelled as explicit state.  Fallible WebGL primitives
(context acquisition, shader compilation, program linking, texture creation,
draw calls, and any GL call throwing) are driven by boolean outcome flags in
an environment record, so the theorems quantify over every failure pattern. -/

/-- The destination render surface (the canvas backing the WebGL context). -/
structure Surface where
  width : ℕ
  height : ℕ
  pixels : ℕ → ℕ → Vec3

/-- A blank surface: the state after `canvas.width/height := w/h` followed by
`clearColor(0,0,0,0); clear(COLOR_BUFFER_BIT)`. -/
def blankSurface (w h : ℕ) : Surface := ⟨w, h, fun _ _ => Vec3.black⟩

/-- An input bitmap (`HTMLImageElement`), RGB as `[0,1]` rationals. -/
structure Image where
  width : ℕ
  height : ℕ
  pix : ℕ → ℕ → Vec3

/-- The JSON-serialized palette-options cache key built by
`updatePaletteIfNeeded` (`JSON.stringify({usePalette, type, colors, custom,
user})`).  `JSON.stringify` omits `undefined` fields, so two keys are equal
exactly when these five option fields are structurally equal. -/
structure PaletteKey where
  usePalette : Option Bool
  type : Option ℤ
  colors : Option ℕ
  custom : Option (List String)
  user : Option ℕ
deriving DecidableEq, Repr

/-- `paletteOptionsKey`: the five option fields `updatePaletteIfNeeded`
serializes into its cache key. -/
def paletteOptionsKey (o : DitherOptions) : PaletteKey :=
  ⟨o.usePalette, o.paletteType, o.paletteColors, o.customPalette, o.selectedUserPalette⟩

/-- The mutable fields of a `WebGLService` instance.  Resource handles are
modelled by their presence (`true` = non-null).  `paletteTexData` is the color
list most recently rasterized into the palette texture and `uploadCount` the
number of `texImage2D` uploads made to it. -/
structure WebGLServiceState where
  gl : Bool
  program : Bool
  texture : Bool
  errorTexture : Bool
  paletteTexture : Bool
  canvas : Option Surface
  lastPaletteOptions : Option PaletteKey  -- `""` initially, i.e. no key yet
  paletteTexData : List String
  uploadCount : ℕ

/-- `updatePaletteIfNeeded` from webgl-service.ts: skip when the serialized
palette options equal the cached key; otherwise resolve the palette and upload
it (or the default black/white list when the resolution is empty), then cache
the key. -/
def updatePaletteIfNeeded (st : WebGLServiceState) (o : DitherOptions) : WebGLServiceState :=
  if ¬st.gl ∨ ¬st.paletteTexture then st
  else if st.lastPaletteOptions = some (paletteOptionsKey o) then st
  else
    let colors := getPaletteColors o
    let upload := if colors ≠ [] then colors else ["#000000", "#FFFFFF"]
    { st with paletteTexData := upload,
              uploadCount := st.uploadCount + 1,
              lastPaletteOptions := some (paletteOptionsKey o) }

/-- Result of running the body of a public operation: either a `return` with
a Bool, or a JS exception escaping the body (to be caught at the public
boundary).  Both carry the service state at that moment. -/
inductive Outcome where
  | ret (st : WebGLServiceState) (b : Bool)
  | thrown (st : WebGLServiceState)

/-- Outcome flags for the fallible primitives used by `setupWebGL`. -/
structure SetupEnv where
  contextOk : Bool         -- getContext("webgl2") / getContext("webgl")
  vertexShaderOk : Bool    -- createShader(VERTEX_SHADER, …): creation + compile
  fragmentShaderOk : Bool  -- createShader(FRAGMENT_SHADER, …)
  programOk : Bool         -- createProgram: creation + link
  mainTextureOk : Bool     -- createMainTexture (gl.createTexture)
  errorTextureOk : Bool    -- createErrorTexture
  paletteTextureOk : Bool  -- createPaletteTexture
  throwDuringSetup : Bool  -- some GL call after program linking throws
deriving DecidableEq, Repr

/-- The state of a freshly constructed `WebGLService` (all handles null,
`lastPaletteOptions = ""`). -/
def initialServiceState : WebGLServiceState :=
  ⟨false, false, false, false, false, none, none, [], 0⟩

/-- The body of `setupWebGL(canvas)` (inside its try block), with `cv` the
canvas passed in.  Null context, null shader, or null program each
`return false`; texture-creation results are assigned but never checked. -/
def setupWebGLBody (env : SetupEnv) (cv : Surface) : Outcome :=
  let st0 := { initialServiceState with canvas := some cv }
  if ¬env.contextOk then .ret st0 false
  else
    let st1 := { st0 with gl := true }
    if ¬(env.vertexShaderOk ∧ env.fragmentShaderOk) then .ret st1 false
    else if ¬env.programOk then .ret st1 false
    else
      let st2 := { st1 with program := true }
      if env.throwDuringSetup then .thrown st2
      else
        .ret { st2 with
                 texture := env.mainTextureOk,
                 errorTexture := env.errorTextureOk,
                 paletteTexture := env.paletteTextureOk,
                 -- createPaletteTexture rasterizes the default black/white list
                 paletteTexData := if env.paletteTextureOk then ["#000000", "#FFFFFF"] else [],
                 uploadCount := if env.paletteTextureOk then 1 else 0 } true

/-- Public `setupWebGL`: the body's exceptions are caught
(`catch (error) { …; return false; }`). -/
def setupWebGL (env : SetupEnv) (cv : Surface) : WebGLServiceState × Bool :=
  match setupWebGLBody env cv with
  | .ret st b => (st, b)
  | .thrown st => (st, false)

/-- Outcome flags for the fallible primitives used by `ditherImage`. -/
structure RenderEnv where
  downsampleOk : Bool    -- downSampleImage resolves (else: caught, falls back to original)
  throwEarly : Bool      -- the requestAnimationFrame await throws (before any GL mutation)
  throwBeforeDraw : Bool -- a GL call after resize/clear but before dispatch throws
  drawThrows : Bool      -- gl.drawArrays throws (caught inside the render helpers)
deriving DecidableEq, Repr

/-- The downsampled dimensions: `Math.floor(image.width / factor)`, applied
only when `(options.downSampling || 1) > 1` and the downsample succeeds
(failure is caught and falls back to the original image). -/
def processedDims (env : RenderEnv) (img : Image) (o : DitherOptions) : ℕ × ℕ :=
  let factor := match o.downSampling with
                | none => 1
                | some q => if q = 0 then 1 else q
  if factor > 1 ∧ env.downsampleOk then
    (⌊(img.width : ℚ) / factor⌋₊, ⌊(img.height : ℚ) / factor⌋₊)
  else (img.width, img.height)

/-- The body of `ditherImage(image, options)`.  `pp` is the shader's
`preprocessImage` (taken as a function, see `preprocessImage`), `hashF` the
per-pixel Ordered hash.  Steps, in program order: null guard; downsample;
resize canvas + viewport; clear; upload source texture; palette update;
uniforms; dispatch by `options.ditherType`. -/
def ditherImageBody (env : RenderEnv) (st : WebGLServiceState) (img : Image)
    (o : DitherOptions) (pp : Vec3 → Vec3) (hashF : ℕ → ℕ → ℚ) : Outcome :=
  -- `if (!this.gl || !this.program || !this.canvas) return false;`
  if ¬(st.gl ∧ st.program ∧ st.canvas.isSome) then .ret st false
  else if env.throwEarly then .thrown st
  else
    let pw := (processedDims env img o).1
    let ph := (processedDims env img o).2
    -- canvas resize + viewport + clearColor(0,0,0,0) + clear
    let st1 := { st with canvas := some (blankSurface pw ph) }
    if env.throwBeforeDraw then .thrown st1
    else
      -- loadImageTexture (skipped when the main texture handle is null;
      -- sampling an unloaded texture yields black)
      let sample : ℕ → ℕ → Vec3 := fun x y => if st.texture then img.pix x y else Vec3.black
      let st2 := updatePaletteIfNeeded st1 o
      let buf := paletteVecOf st2.paletteTexData
      let u : ShaderUniforms :=
        { ditherAmount := o.ditherAmount, ditherType := o.ditherType, passIndex := 0,
          bayerSize := o.bayerSize.getD 1, usePalette := o.usePalette.getD false }
      if o.ditherType = 1 then
        -- Floyd-Steinberg: requires the error texture, else `return false`
        if st.errorTexture then
          let start : FSBuffers := ⟨fun x y => (blankSurface pw ph).pixels x y, fun _ _ => Vec3.black⟩
          let r := renderFloydSteinberg env.drawThrows u buf hashF (fun x y => pp (sample x y)) start
          if r.2 then .ret { st2 with canvas := some ⟨pw, ph, r.1.canvas⟩ } true
          else .ret st2 false
        else .ret st2 false
      else
        -- Bayer / Ordered: single draw via renderStandardDither
        if renderStandardDither env.drawThrows then
          .ret { st2 with canvas := some ⟨pw, ph,
                   fun x y => shaderMain u buf (hashF x y) Vec3.black x y (pp (sample x y))⟩ } true
        else .ret st2 false

/-- Public `ditherImage`: the body's exceptions are caught
(`catch (error) { …; return false; }`). -/
def ditherImage (env : RenderEnv) (st : WebGLServiceState) (img : Image)
    (o : DitherOptions) (pp : Vec3 → Vec3) (hashF : ℕ → ℕ → ℚ) :
    WebGLServiceState × Bool :=
  match ditherImageBody env st img o pp hashF with
  | .ret st b => (st, b)
  | .thrown st => (st, false)

/-! ## Helper lemmas -/

theorem glslMix_zero (a b : ℚ) : glslMix a b 0 = a := by
  simp [glslMix]

theorem glslMix_one (a b : ℚ) : glslMix a b 1 = b := by
  simp [glslMix]

theorem glslMix_self (a t : ℚ) : glslMix a a t = a := by
  simp [glslMix]; ring

theorem mixV_zero (a b : Vec3) : mixV a b 0 = a := by
  simp [mixV, glslMix_zero]

theorem mixV_one (a b : Vec3) : mixV a b 1 = b := by
  simp [mixV, glslMix_one]

theorem mixV_self (a : Vec3) (t : ℚ) : mixV a a t = a := by
  simp [mixV, glslMix_self]

theorem Vec3.add_def (a b : Vec3) : a + b = ⟨a.x + b.x, a.y + b.y, a.z + b.z⟩ := rfl

theorem Vec3.add_black (a : Vec3) : a + Vec3.black = a := by
  simp [Vec3.add_def, Vec3.black]

theorem toGrayscale_black : toGrayscale Vec3.black = 0 := by
  simp [toGrayscale, Vec3.black]

theorem toGrayscale_white : toGrayscale Vec3.white = 1 := by
  norm_num [toGrayscale, Vec3.white]

theorem samplePalette1D_zero (buf : Fin 256 → Vec3) : samplePalette1D buf 0 = buf 0 := by
  have ht : ⌊(0 : ℚ) * 256 - 1/2⌋ = -1 := by norm_num
  have h0 : texelClamp (-1) = 0 := by decide
  have h1 : texelClamp (-1 + 1) = 0 := by decide
  simp only [samplePalette1D, ht, h0, h1]
  exact mixV_self _ _

theorem samplePalette1D_one (buf : Fin 256 → Vec3) : samplePalette1D buf 1 = buf 255 := by
  have ht : ⌊(1 : ℚ) * 256 - 1/2⌋ = 255 := by norm_num [Int.floor_eq_iff]
  have h0 : texelClamp 255 = 255 := by decide
  have h1 : texelClamp (255 + 1) = 255 := by decide
  simp only [samplePalette1D, ht, h0, h1]
  exact mixV_self _ _

theorem updatePaletteIfNeeded_canvas (st : WebGLServiceState) (o : DitherOptions) :
    (updatePaletteIfNeeded st o).canvas = st.canvas := by
  unfold updatePaletteIfNeeded
  split_ifs <;> rfl

/-! ## C7: Bayer threshold periodicity -/

/-- C7: for every pixel coordinate and every selector `u_bayerSize ∈ {0,1,2}`
(matrix sizes 2, 4, 8), the Bayer threshold lookup computed by the shader's
`main` is periodic with period equal to the matrix size in each axis. -/
theorem bayer_threshold_periodic (s : Fin 3) (x y : ℕ) :
    bayerThresholdAt (s.val : ℤ) (x + bayerMatrixSize (s.val : ℤ)) y
      = bayerThresholdAt (s.val : ℤ) x y ∧
    bayerThresholdAt (s.val : ℤ) x (y + bayerMatrixSize (s.val : ℤ))
      = bayerThresholdAt (s.val : ℤ) x y := by
  fin_cases s <;>
    simp [bayerThresholdAt, bayerMatrixSize, getBayerThreshold, getBayerThreshold2x2,
      getBayerThreshold4x4, getBayerThreshold8x8, Nat.add_mod_right]

/-! ## C3: ditherAmount = 0 -/

/-- C3 (amended): with `ditherAmount = 0`, the Bayer branch outputs the
preprocessed color quantized at 16 levels and the Ordered branch outputs the
preprocessed color unquantized; in both branches the threshold color
contributes nothing.  With `u_usePalette` the same value is palette-mapped. -/
theorem amount_zero_output (c : Vec3) (buf : Fin 256 → Vec3) (hash : ℚ) (err : Vec3)
    (px py : ℕ) (bs pass : ℤ) (up : Bool) :
    shaderMain ⟨0, 0, pass, bs, up⟩ buf hash err px py c
      = (if up then findClosestPaletteColor up buf (reduceColor c 16)
         else reduceColor c 16) ∧
    shaderMain ⟨0, 2, pass, bs, up⟩ buf hash err px py c
      = (if up then findClosestPaletteColor up buf c else c) := by
  constructor <;>
    simp [shaderMain, glslMix_zero, mixV_zero]

/-- C3 counterexample: at `ditherAmount = 0`, Ordered mode leaves the
preprocessed color `(1/3, 1/3, 1/3)` unchanged, which differs from that color
quantized at 16 levels (`5/16`), so the Ordered output does not equal the
preprocessed image quantized at the maximum level count. -/
theorem ordered_amount_zero_unquantized_cex :
    shaderMain ⟨0, 2, 0, 1, false⟩ (fun _ => Vec3.black) (1/2) Vec3.black 0 0 ⟨1/3, 1/3, 1/3⟩
      = ⟨1/3, 1/3, 1/3⟩ ∧
    reduceColor ⟨1/3, 1/3, 1/3⟩ 16 ≠ ⟨1/3, 1/3, 1/3⟩ := by
  constructor
  · simp [shaderMain, mixV_zero]
  · norm_num [reduceColor, glslFloor, Vec3.mk.injEq]

/-! ## Floyd-Steinberg render facts -/

theorem renderFloydSteinberg_errorTex (d : Bool) (u : ShaderUniforms) (buf : Fin 256 → Vec3)
    (hashF : ℕ → ℕ → ℚ) (pre : ℕ → ℕ → Vec3) (bufs : FSBuffers) :
    (renderFloydSteinberg d u buf hashF pre bufs).1.errorTex = fun _ _ => Vec3.black := by
  unfold renderFloydSteinberg
  split <;> rfl

theorem renderFloydSteinberg_canvas (amount : ℚ) (bs pass : ℤ) (buf : Fin 256 → Vec3)
    (hashF : ℕ → ℕ → ℚ) (pre : ℕ → ℕ → Vec3) (bufs : FSBuffers) (px py : ℕ) :
    (renderFloydSteinberg false ⟨amount, 1, pass, bs, false⟩ buf hashF pre bufs).1.canvas px py
      = reduceColor (pre px py) (glslMix 16 2 amount) := by
  simp [renderFloydSteinberg, shaderMain, applyFloydSteinberg, Vec3.add_black]

theorem reduce_two_channel {q : ℚ} (h0 : 0 ≤ q) (h1 : q ≤ 1) :
    glslFloor (q * 2) / 2 = 0 ∨ glslFloor (q * 2) / 2 = 1/2 ∨ glslFloor (q * 2) / 2 = 1 := by
  have h2 : (0:ℤ) ≤ ⌊q * 2⌋ := Int.floor_nonneg.mpr (by linarith)
  have h3 : ⌊q * 2⌋ ≤ 2 := by
    have h4 : ⌊q * 2⌋ ≤ ⌊(2 : ℚ)⌋ := Int.floor_le_floor (by linarith)
    simpa using h4
  unfold glslFloor
  have h5 : ⌊q * 2⌋ = 0 ∨ ⌊q * 2⌋ = 1 ∨ ⌊q * 2⌋ = 2 := by omega
  rcases h5 with h | h | h <;> rw [h] <;> norm_num

/-! ## C4: ditherAmount = 1 -/

/-- C4 (amended): with `ditherAmount = 1`, Bayer and Ordered output is pure
two-tone black/white without a palette, and the palette texture's first or
last texel with one; the Floyd-Steinberg branch instead quantizes each channel
by `floor(2c)/2`, so its output channels lie in `{0, 1/2, 1}` — midtone gray
survives, the output is not two-tone. -/
theorem amount_one_output (c : Vec3) (buf : Fin 256 → Vec3) (hash : ℚ) (err : Vec3)
    (px py : ℕ) (bs pass : ℤ) :
    (shaderMain ⟨1, 0, pass, bs, false⟩ buf hash err px py c = Vec3.black ∨
     shaderMain ⟨1, 0, pass, bs, false⟩ buf hash err px py c = Vec3.white) ∧
    (shaderMain ⟨1, 2, pass, bs, false⟩ buf hash err px py c = Vec3.black ∨
     shaderMain ⟨1, 2, pass, bs, false⟩ buf hash err px py c = Vec3.white) ∧
    (shaderMain ⟨1, 0, pass, bs, true⟩ buf hash err px py c = buf 0 ∨
     shaderMain ⟨1, 0, pass, bs, true⟩ buf hash err px py c = buf 255) ∧
    (shaderMain ⟨1, 2, pass, bs, true⟩ buf hash err px py c = buf 0 ∨
     shaderMain ⟨1, 2, pass, bs, true⟩ buf hash err px py c = buf 255) ∧
    (∀ (hashF : ℕ → ℕ → ℚ) (pre : ℕ → ℕ → Vec3) (bufs : FSBuffers),
      0 ≤ (pre px py).x → (pre px py).x ≤ 1 →
      0 ≤ (pre px py).y → (pre px py).y ≤ 1 →
      0 ≤ (pre px py).z → (pre px py).z ≤ 1 →
      (((renderFloydSteinberg false ⟨1, 1, pass, bs, false⟩ buf hashF pre bufs).1.canvas px py).x = 0 ∨
       ((renderFloydSteinberg false ⟨1, 1, pass, bs, false⟩ buf hashF pre bufs).1.canvas px py).x = 1/2 ∨
       ((renderFloydSteinberg false ⟨1, 1, pass, bs, false⟩ buf hashF pre bufs).1.canvas px py).x = 1) ∧
      (((renderFloydSteinberg false ⟨1, 1, pass, bs, false⟩ buf hashF pre bufs).1.canvas px py).y = 0 ∨
       ((renderFloydSteinberg false ⟨1, 1, pass, bs, false⟩ buf hashF pre bufs).1.canvas px py).y = 1/2 ∨
       ((renderFloydSteinberg false ⟨1, 1, pass, bs, false⟩ buf hashF pre bufs).1.canvas px py).y = 1) ∧
      (((renderFloydSteinberg false ⟨1, 1, pass, bs, false⟩ buf hashF pre bufs).1.canvas px py).z = 0 ∨
       ((renderFloydSteinberg false ⟨1, 1, pass, bs, false⟩ buf hashF pre bufs).1.canvas px py).z = 1/2 ∨
       ((renderFloydSteinberg false ⟨1, 1, pass, bs, false⟩ buf hashF pre bufs).1.canvas px py).z = 1)) := by
  refine ⟨?_, ?_, ?_, ?_, ?_⟩
  · by_cases h : toGrayscale c > bayerThresholdAt bs px py <;>
      simp [shaderMain, mixV_one, h]
  · by_cases h : toGrayscale c > hash <;>
      simp [shaderMain, mixV_one, h]
  · by_cases h : toGrayscale c > bayerThresholdAt bs px py <;>
      simp [shaderMain, mixV_one, h, findClosestPaletteColor, toGrayscale_white,
        toGrayscale_black, samplePalette1D_zero, samplePalette1D_one]
  · by_cases h : toGrayscale c > hash <;>
      simp [shaderMain, mixV_one, h, findClosestPaletteColor, toGrayscale_white,
        toGrayscale_black, samplePalette1D_zero, samplePalette1D_one]
  · intro hashF pre bufs h0x h1x h0y h1y h0z h1z
    rw [renderFloydSteinberg_canvas]
    have hl : glslMix 16 2 1 = 2 := glslMix_one 16 2
    rw [hl]
    exact ⟨reduce_two_channel h0x h1x, reduce_two_channel h0y h1y, reduce_two_channel h0z h1z⟩

/-- C4 witness: the theorem instantiated at the preprocessed color
`(3/5, 3/5, 3/5)`, whose hypotheses `0 ≤ 3/5 ≤ 1` hold. -/
theorem amount_one_output_witness :
    ((0:ℚ) ≤ 3/5 ∧ (3/5:ℚ) ≤ 1) ∧
    (let out := (renderFloydSteinberg false ⟨1, 1, 0, 1, false⟩ (fun _ => Vec3.black)
        (fun _ _ => 0) (fun _ _ => ⟨3/5, 3/5, 3/5⟩)
        ⟨fun _ _ => Vec3.black, fun _ _ => Vec3.black⟩).1.canvas 0 0
     out.x = 0 ∨ out.x = 1/2 ∨ out.x = 1) :=
  ⟨⟨by norm_num, by norm_num⟩,
    ((amount_one_output ⟨3/5, 3/5, 3/5⟩ (fun _ => Vec3.black) 0 Vec3.black 0 0 1 0).2.2.2.2
      (fun _ _ => 0) (fun _ _ => ⟨3/5, 3/5, 3/5⟩) ⟨fun _ _ => Vec3.black, fun _ _ => Vec3.black⟩
      (by norm_num) (by norm_num) (by norm_num) (by norm_num) (by norm_num) (by norm_num)).1⟩

/-- C4 counterexample: a Floyd-Steinberg render at `ditherAmount = 1` with
`usePalette = false` on the uniform preprocessed color `(3/5, 3/5, 3/5)`
outputs `(1/2, 1/2, 1/2)` — neither exactly black nor exactly white, refuting
the claim for `ditherType = ErrorDiffusion`. -/
theorem floyd_amount_one_gray_cex :
    (renderFloydSteinberg false ⟨1, 1, 0, 1, false⟩ (fun _ => Vec3.black) (fun _ _ => 0)
        (fun _ _ => ⟨3/5, 3/5, 3/5⟩) ⟨fun _ _ => Vec3.black, fun _ _ => Vec3.black⟩).1.canvas 0 0
      = ⟨1/2, 1/2, 1/2⟩ ∧
    (⟨1/2, 1/2, 1/2⟩ : Vec3) ≠ Vec3.black ∧ (⟨1/2, 1/2, 1/2⟩ : Vec3) ≠ Vec3.white := by
  refine ⟨?_, ?_, ?_⟩
  · rw [renderFloydSteinberg_canvas]
    norm_num [glslMix, reduceColor, glslFloor, Vec3.mk.injEq]
  · norm_num [Vec3.black, Vec3.mk.injEq]
  · norm_num [Vec3.white, Vec3.mk.injEq]

/-! ## C1: the error scratch texture is never written -/

/-- C1 (code-bug evaluation): on the 1×1 preprocessed image `(3/4, 3/4, 3/4)`
with `ditherAmount = 1` (`levels = 2`) and no palette, pass 0's quantized
color is `(1/2, 1/2, 1/2)`, so the claim's stored error would be
`(1/4, 1/4, 1/4)`; but after the render call the error texture still holds
zero at that coordinate (both draws target the default framebuffer; no
framebuffer is ever attached to the error texture), and pass 1 therefore
outputs `(1/2, 1/2, 1/2)` instead of the claimed
`reduceColor(3/4 + 1/4, 2) = white`. -/
theorem floyd_error_never_stored_cex :
    (renderFloydSteinberg false ⟨1, 1, 0, 1, false⟩ (fun _ => Vec3.black) (fun _ _ => 0)
        (fun _ _ => ⟨3/4, 3/4, 3/4⟩) ⟨fun _ _ => Vec3.black, fun _ _ => ⟨9, 9, 9⟩⟩).2 = true ∧
    (renderFloydSteinberg false ⟨1, 1, 0, 1, false⟩ (fun _ => Vec3.black) (fun _ _ => 0)
        (fun _ _ => ⟨3/4, 3/4, 3/4⟩) ⟨fun _ _ => Vec3.black, fun _ _ => ⟨9, 9, 9⟩⟩).1.errorTex 0 0
      = Vec3.black ∧
    reduceColor ⟨3/4, 3/4, 3/4⟩ 2 = ⟨1/2, 1/2, 1/2⟩ ∧
    (renderFloydSteinberg false ⟨1, 1, 0, 1, false⟩ (fun _ => Vec3.black) (fun _ _ => 0)
        (fun _ _ => ⟨3/4, 3/4, 3/4⟩) ⟨fun _ _ => Vec3.black, fun _ _ => ⟨9, 9, 9⟩⟩).1.errorTex 0 0
      ≠ ⟨1/4, 1/4, 1/4⟩ ∧
    (renderFloydSteinberg false ⟨1, 1, 0, 1, false⟩ (fun _ => Vec3.black) (fun _ _ => 0)
        (fun _ _ => ⟨3/4, 3/4, 3/4⟩) ⟨fun _ _ => Vec3.black, fun _ _ => ⟨9, 9, 9⟩⟩).1.canvas 0 0
      = ⟨1/2, 1/2, 1/2⟩ ∧
    reduceColor ((⟨3/4, 3/4, 3/4⟩ : Vec3) + ⟨1/4, 1/4, 1/4⟩) 2 = Vec3.white := by
  refine ⟨rfl, ?_, ?_, ?_, ?_, ?_⟩
  · rw [renderFloydSteinberg_errorTex]
  · norm_num [reduceColor, glslFloor, Vec3.mk.injEq]
  · rw [renderFloydSteinberg_errorTex]
    norm_num [Vec3.black, Vec3.mk.injEq]
  · rw [renderFloydSteinberg_canvas]
    norm_num [glslMix, reduceColor, glslFloor, Vec3.mk.injEq]
  · norm_num [Vec3.add_def, reduceColor, glslFloor, Vec3.white, Vec3.mk.injEq]

/-! ## C5: palette texture upload caching -/

/-- C5 (amended): the palette texture is rewritten exactly when the
serialized palette-*options* key (`usePalette`, `paletteType`,
`paletteColors`, `customPalette`, `selectedUserPalette`) differs from the
previous render's cached key.  The check is on the options, not on the
resolved color list, so structural equality of the resolved palettes neither
implies nor is implied by skipping the upload. -/
theorem palette_upload_iff_key_change (st : WebGLServiceState) (o : DitherOptions)
    (hgl : st.gl = true) (hpt : st.paletteTexture = true) :
    (updatePaletteIfNeeded st o).uploadCount = st.uploadCount ↔
      st.lastPaletteOptions = some (paletteOptionsKey o) := by
  unfold updatePaletteIfNeeded
  rw [if_neg (by simp [hgl, hpt])]
  split_ifs with h <;> simp [h]

/-- C5 witness: the theorem applied to a service state with no cached key. -/
theorem palette_upload_iff_key_change_witness :
    (updatePaletteIfNeeded
        ⟨true, true, true, true, true, none, none, [], 0⟩
        { ditherAmount := 1/2, ditherType := 0 }).uploadCount
        = (⟨true, true, true, true, true, none, none, [], 0⟩ : WebGLServiceState).uploadCount ↔
      (⟨true, true, true, true, true, none, none, [], 0⟩ : WebGLServiceState).lastPaletteOptions
        = some (paletteOptionsKey { ditherAmount := 1/2, ditherType := 0 }) :=
  palette_upload_iff_key_change _ _ rfl rfl

/-- C5 counterexample: two renders whose resolved palettes are structurally
equal (`["#000000", "#FFFFFF"]` both via the built-in black/white palette and
via an identical custom list) still trigger a texture upload on the second
render, because the cache key serializes the palette options, not the
resolved list. -/
theorem palette_upload_despite_equal_resolution_cex :
    let optA : DitherOptions :=
      { ditherAmount := 1/2, ditherType := 0, usePalette := some true,
        paletteType := some 0, paletteColors := some 2 }
    let optB : DitherOptions :=
      { ditherAmount := 1/2, ditherType := 0, usePalette := some true,
        paletteType := some 3, paletteColors := some 2,
        customPalette := some ["#000000", "#FFFFFF"] }
    let st : WebGLServiceState :=
      { gl := true, program := true, texture := true, errorTexture := true,
        paletteTexture := true, canvas := none,
        lastPaletteOptions := some (paletteOptionsKey optA),
        paletteTexData := ["#000000", "#FFFFFF"], uploadCount := 5 }
    getPaletteColors optA = getPaletteColors optB ∧
    (updatePaletteIfNeeded st optB).uploadCount = st.uploadCount + 1 := by
  refine ⟨rfl, ?_⟩
  rw [updatePaletteIfNeeded, if_neg (by simp), if_neg (by simp [paletteOptionsKey])]

/-! ## C8: empty custom palette falls back to black/white -/

/-- C8: with `usePalette = true` and an empty custom palette, palette
resolution returns the empty list, `updatePaletteIfNeeded` substitutes the
default black/white list into the palette texture, and the render call
completes successfully — the condition is never surfaced as an error. -/
theorem empty_palette_defaults (o : DitherOptions) (st : WebGLServiceState)
    (hu : o.usePalette = some true) (ht : o.paletteType = some 3)
    (hc : o.customPalette = some ([] : List String))
    (hgl : st.gl = true) (hpt : st.paletteTexture = true)
    (hkey : st.lastPaletteOptions ≠ some (paletteOptionsKey o)) :
    getPaletteColors o = [] ∧
    (updatePaletteIfNeeded st o).paletteTexData = ["#000000", "#FFFFFF"] ∧
    (∀ (img : Image) (pp : Vec3 → Vec3) (hashF : ℕ → ℕ → ℚ),
      st.program = true → st.canvas.isSome = true → o.ditherType = 0 →
      (ditherImage ⟨true, false, false, false⟩ st img o pp hashF).2 = true) := by
  have hcols : getPaletteColors o = [] := by
    simp [getPaletteColors, hu, ht, hc]
  refine ⟨hcols, ?_, ?_⟩
  · rw [updatePaletteIfNeeded, if_neg (by simp [hgl, hpt]), if_neg hkey]
    simp [hcols]
  · intro img pp hashF hprog hcv htyp
    rw [ditherImage, ditherImageBody]
    rw [if_neg (by simp [hgl, hprog, hcv])]
    simp [htyp, renderStandardDither]

/-- C8 witness: the theorem applied to a concrete empty custom palette and a
fully initialized service. -/
theorem empty_palette_defaults_witness :
    let o : DitherOptions :=
      { ditherAmount := 1/2, ditherType := 0, usePalette := some true,
        paletteType := some 3, customPalette := some [] }
    let st : WebGLServiceState :=
      { gl := true, program := true, texture := true, errorTexture := true,
        paletteTexture := true, canvas := some (blankSurface 1 1),
        lastPaletteOptions := none, paletteTexData := [], uploadCount := 0 }
    getPaletteColors o = [] ∧
    (updatePaletteIfNeeded st o).paletteTexData = ["#000000", "#FFFFFF"] ∧
    (ditherImage ⟨true, false, false, false⟩ st ⟨1, 1, fun _ _ => Vec3.black⟩ o id
        (fun _ _ => 0)).2 = true := by
  have h := empty_palette_defaults
    { ditherAmount := 1/2, ditherType := 0, usePalette := some true,
      paletteType := some 3, customPalette := some [] }
    { gl := true, program := true, texture := true, errorTexture := true,
      paletteTexture := true, canvas := some (blankSurface 1 1),
      lastPaletteOptions := none, paletteTexData := [], uploadCount := 0 }
    rfl rfl rfl rfl rfl (by simp)
  exact ⟨h.1, h.2.1, h.2.2 ⟨1, 1, fun _ _ => Vec3.black⟩ id (fun _ _ => 0) rfl rfl rfl⟩

/-! ## C2 / C9: orchestrator failure behavior -/

theorem renderFloydSteinberg_ok (d : Bool) (u : ShaderUniforms) (buf : Fin 256 → Vec3)
    (hashF : ℕ → ℕ → ℚ) (pre : ℕ → ℕ → Vec3) (bufs : FSBuffers) :
    (renderFloydSteinberg d u buf hashF pre bufs).2 = !d := by
  unfold renderFloydSteinberg
  cases d <;> simp

/-- C2 (amended): a failed render leaves the previous surface only when the
failure happens before any surface mutation (the null-resource guard, or a
throw at the pre-render yield).  Once the orchestrator reaches the
resize/clear step it mutates the destination first and dispatches after, so
every later failure (missing error texture, a throw before dispatch, a failed
draw) returns `false` with the destination resized to the processed
dimensions and cleared — not with the previous frame. -/
theorem render_failure_surface_policy :
    (∀ (env : RenderEnv) (st : WebGLServiceState) (img : Image) (o : DitherOptions)
        (pp : Vec3 → Vec3) (hashF : ℕ → ℕ → ℚ),
      ¬(st.gl ∧ st.program ∧ st.canvas.isSome) →
      ditherImage env st img o pp hashF = (st, false)) ∧
    (∀ (env : RenderEnv) (st : WebGLServiceState) (img : Image) (o : DitherOptions)
        (pp : Vec3 → Vec3) (hashF : ℕ → ℕ → ℚ),
      (st.gl ∧ st.program ∧ st.canvas.isSome) → env.throwEarly = true →
      ditherImage env st img o pp hashF = (st, false)) ∧
    (∀ (env : RenderEnv) (st : WebGLServiceState) (img : Image) (o : DitherOptions)
        (pp : Vec3 → Vec3) (hashF : ℕ → ℕ → ℚ),
      (st.gl ∧ st.program ∧ st.canvas.isSome) → env.throwEarly = false →
      (ditherImage env st img o pp hashF).2 = false →
      (ditherImage env st img o pp hashF).1.canvas
        = some (blankSurface (processedDims env img o).1 (processedDims env img o).2)) := by
  refine ⟨?_, ?_, ?_⟩
  · intro env st img o pp hashF hg
    simp [ditherImage, ditherImageBody, hg]
  · intro env st img o pp hashF hg he
    obtain ⟨h1, h2, h3⟩ := hg
    simp [ditherImage, ditherImageBody, h1, h2, h3, he]
  · intro env st img o pp hashF hg he hf
    obtain ⟨h1, h2, h3⟩ := hg
    by_cases hb : env.throwBeforeDraw <;>
      by_cases ht : o.ditherType = 1 <;>
        by_cases hd : env.drawThrows <;>
          by_cases het : st.errorTexture <;>
            simp_all [ditherImage, ditherImageBody, renderFloydSteinberg_ok,
              renderStandardDither, updatePaletteIfNeeded_canvas]

/-- C2 witness: the third part of the theorem applied to a concrete failing
Floyd-Steinberg render (error texture missing). -/
theorem render_failure_surface_policy_witness :
    let env : RenderEnv := ⟨true, false, false, false⟩
    let st : WebGLServiceState :=
      { gl := true, program := true, texture := true, errorTexture := false,
        paletteTexture := true, canvas := some ⟨5, 7, fun _ _ => Vec3.white⟩,
        lastPaletteOptions := none, paletteTexData := ["#000000", "#FFFFFF"],
        uploadCount := 1 }
    let img : Image := ⟨1, 1, fun _ _ => Vec3.black⟩
    let o : DitherOptions := { ditherAmount := 1/2, ditherType := 1 }
    (ditherImage env st img o id (fun _ _ => 0)).2 = false ∧
    (ditherImage env st img o id (fun _ _ => 0)).1.canvas
      = some (blankSurface (processedDims env img o).1 (processedDims env img o).2) :=
  ⟨rfl, render_failure_surface_policy.2.2 _ _ _ _ _ _ ⟨rfl, rfl, rfl⟩ rfl rfl⟩

/-- C2 counterexample: the same failing render (Floyd-Steinberg selected with
a missing error texture) returns `false` yet replaces the previous 5×7
destination content with a cleared 1×1 surface — the destination surface is
not left as it was after the previous render. -/
theorem render_failure_mutates_surface_cex :
    (ditherImage ⟨true, false, false, false⟩
        { gl := true, program := true, texture := true, errorTexture := false,
          paletteTexture := true, canvas := some ⟨5, 7, fun _ _ => Vec3.white⟩,
          lastPaletteOptions := none, paletteTexData := ["#000000", "#FFFFFF"],
          uploadCount := 1 }
        ⟨1, 1, fun _ _ => Vec3.black⟩ { ditherAmount := 1/2, ditherType := 1 } id
        (fun _ _ => 0)).2 = false ∧
    (ditherImage ⟨true, false, false, false⟩
        { gl := true, program := true, texture := true, errorTexture := false,
          paletteTexture := true, canvas := some ⟨5, 7, fun _ _ => Vec3.white⟩,
          lastPaletteOptions := none, paletteTexData := ["#000000", "#FFFFFF"],
          uploadCount := 1 }
        ⟨1, 1, fun _ _ => Vec3.black⟩ { ditherAmount := 1/2, ditherType := 1 } id
        (fun _ _ => 0)).1.canvas ≠ some ⟨5, 7, fun _ _ => Vec3.white⟩ := by
  refine ⟨rfl, ?_⟩
  intro h
  have h1 : (ditherImage ⟨true, false, false, false⟩
      { gl := true, program := true, texture := true, errorTexture := false,
        paletteTexture := true, canvas := some ⟨5, 7, fun _ _ => Vec3.white⟩,
        lastPaletteOptions := none, paletteTexData := ["#000000", "#FFFFFF"],
        uploadCount := 1 }
      ⟨1, 1, fun _ _ => Vec3.black⟩ { ditherAmount := 1/2, ditherType := 1 } id
      (fun _ _ => 0)).1.canvas = some (blankSurface 1 1) := rfl
  rw [h1] at h
  exact absurd (congrArg Surface.width (Option.some_injective _ h)) (by decide)

/-- C9 (amended): neither public operation throws — both return a Bool for
every failure pattern.  `setupWebGL` returns `true` iff context acquisition,
both shader compilations and program linking succeed and no later GL call
throws: texture-creation failures are not checked and do not make it return
`false`.  `ditherImage` returns `true` iff its draw calls are reached and
submitted: resources present, no throw, and (for Floyd-Steinberg) the error
texture present. -/
theorem public_ops_success_iff :
    (∀ (env : SetupEnv) (cv : Surface),
      (setupWebGL env cv).2 = true ↔
        (env.contextOk ∧ env.vertexShaderOk ∧ env.fragmentShaderOk ∧ env.programOk ∧
          env.throwDuringSetup = false)) ∧
    (∀ (env : RenderEnv) (st : WebGLServiceState) (img : Image) (o : DitherOptions)
        (pp : Vec3 → Vec3) (hashF : ℕ → ℕ → ℚ),
      (ditherImage env st img o pp hashF).2 = true ↔
        (st.gl ∧ st.program ∧ st.canvas.isSome ∧ env.throwEarly = false ∧
          env.throwBeforeDraw = false ∧ env.drawThrows = false ∧
          (o.ditherType = 1 → st.errorTexture))) := by
  constructor
  · intro env cv
    obtain ⟨c, v, f, p, mt, et, pt, th⟩ := env
    cases c <;> cases v <;> cases f <;> cases p <;> cases th <;>
      simp [setupWebGL, setupWebGLBody]
  · intro env st img o pp hashF
    obtain ⟨ds, te, tb, dt⟩ := env
    obtain ⟨g, pr, tx, er, ptx, cv, lk, ptd, uc⟩ := st
    by_cases ht : o.ditherType = 1 <;>
      cases g <;> cases pr <;> cases te <;> cases tb <;> cases dt <;> cases er <;> cases cv <;>
        simp_all [ditherImage, ditherImageBody, renderFloydSteinberg_ok, renderStandardDither]

/-- C9 witness: a fully successful setup returns `true`. -/
theorem public_ops_success_iff_witness :
    (setupWebGL ⟨true, true, true, true, true, true, true, false⟩ (blankSurface 2 2)).2 = true :=
  (public_ops_success_iff.1 ⟨true, true, true, true, true, true, true, false⟩
    (blankSurface 2 2)).mpr (by simp)

/-- C9 counterexample: `setupWebGL` returns `true` even though creating the
main image texture failed — a resource-creation failure that does not result
in `false`, because texture-creation results are never checked. -/
theorem setup_true_despite_texture_failure_cex :
    (setupWebGL ⟨true, true, true, true, false, true, true, false⟩ (blankSurface 3 3)).2 = true ∧
    (⟨true, true, true, true, false, true, true, false⟩ : SetupEnv).mainTextureOk = false :=
  ⟨rfl, rfl⟩

/-! ## C6: palette rasterization bands -/

theorem colorIndexAt_eq (len i : ℕ) :
    colorIndexAt len i = min (i * len / 255) (len - 1) := by
  unfold colorIndexAt
  have hcast : (i : ℚ) / 255 * (len : ℚ) = ((i * len : ℕ) : ℚ) / ((255 : ℕ) : ℚ) := by
    push_cast
    ring
  rw [hcast, Nat.floor_div_eq_div]

/-- C6: rasterizing a palette of `n` colors (2 ≤ n ≤ 16) yields a 256-entry
RGBA buffer whose entry `i` holds the color at list index
`min(floor(i/255 * n), n-1)`; the index map is monotone, starts at 0, ends at
`n-1`, stays below `n` (so every entry uses a color from the list), and every
index below `n` is hit — i.e. `n` contiguous, non-overlapping bands in
ascending list order. -/
theorem palette_rasterization_bands (colors : List String) (n : ℕ)
    (hlen : colors.length = n) (h2 : 2 ≤ n) (h16 : n ≤ 16) :
    (updatePaletteTextureData colors).length = 256 ∧
    (∀ i, i < 256 → (updatePaletteTextureData colors).getD i (0, 0, 0, 0) =
        ((hexToRgb (colors.getD (min (i * n / 255) (n - 1)) "#000000")).1,
         (hexToRgb (colors.getD (min (i * n / 255) (n - 1)) "#000000")).2.1,
         (hexToRgb (colors.getD (min (i * n / 255) (n - 1)) "#000000")).2.2, 255)) ∧
    (∀ i, i < 256 → colors.getD (colorIndexAt n i) "#000000" ∈ colors) ∧
    (∀ i j, i ≤ j → colorIndexAt n i ≤ colorIndexAt n j) ∧
    colorIndexAt n 0 = 0 ∧
    colorIndexAt n 255 = n - 1 ∧
    (∀ j, j < n → ∃ i : Fin 256, colorIndexAt n i.val = j) := by
  have hlen256 : (updatePaletteTextureData colors).length = 256 := by
    simp [updatePaletteTextureData]
  refine ⟨hlen256, ?_, ?_, ?_, ?_, ?_, ?_⟩
  · intro i hi
    rw [List.getD_eq_getElem _ _ (by rw [hlen256]; exact hi)]
    simp only [updatePaletteTextureData, List.getElem_map, List.getElem_range]
    simp [paletteEntry, hlen, colorIndexAt_eq]
  · intro i hi
    have hidx : colorIndexAt n i < n := by
      rw [colorIndexAt_eq]
      have hnn : n - 1 < n := by omega
      exact lt_of_le_of_lt (min_le_right _ _) hnn
    rw [List.getD_eq_getElem _ _ (by rw [hlen]; exact hidx)]
    exact List.getElem_mem _
  · intro i j hij
    rw [colorIndexAt_eq, colorIndexAt_eq]
    exact min_le_min (Nat.div_le_div_right (Nat.mul_le_mul_right n hij)) le_rfl
  · rw [colorIndexAt_eq]
    simp
  · rw [colorIndexAt_eq]
    rw [Nat.mul_div_cancel_left n (by norm_num : (0:ℕ) < 255)]
    exact min_eq_right (by omega)
  · intro j hj
    have hn : 0 < n := by omega
    have hjn : j ≤ n - 1 := by omega
    set a := 255 * j + n - 1 with ha
    have hmod := Nat.div_add_mod a n
    have hrlt : a % n < n := Nat.mod_lt _ hn
    have hub : a / n < 256 := by
      by_contra hcon
      push_neg at hcon
      have hx : n * 256 ≤ n * (a / n) := Nat.mul_le_mul_left n hcon
      have h255 : 255 * j ≤ 255 * (n - 1) := Nat.mul_le_mul_left 255 hjn
      omega
    refine ⟨⟨a / n, hub⟩, ?_⟩
    show colorIndexAt n (a / n) = j
    rw [colorIndexAt_eq, Nat.mul_comm]
    omega

/-- C6 witness: the theorem applied to the 4-color CGA palette. -/
theorem palette_rasterization_bands_witness :
    ((2:ℕ) ≤ 4 ∧ (4:ℕ) ≤ 16) ∧
    (updatePaletteTextureData PALETTES_CGA).length = 256 ∧
    colorIndexAt 4 0 = 0 ∧
    colorIndexAt 4 255 = 4 - 1 :=
  ⟨⟨by norm_num, by norm_num⟩,
   (palette_rasterization_bands PALETTES_CGA 4 rfl (by norm_num) (by norm_num)).1,
   (palette_rasterization_bands PALETTES_CGA 4 rfl (by norm_num) (by norm_num)).2.2.2.2.1,
   (palette_rasterization_bands PALETTES_CGA 4 rfl (by norm_num) (by norm_num)).2.2.2.2.2.1⟩

end DitherMe
